import Mathlib

/-!
Verification of the ECE3849 Lab 0 stopwatch firmware (`src/main.cpp`) against its
natural-language specification.

The program is a bare-metal cooperative super-loop driving a stopwatch model,
two debounced buttons and a 128x128 LCD.  We shallowly embed the loop body of
`main` and its helper functions.  Machine integers (`uint32_t`) are modelled as
`Nat` with explicit `% 2^32` at the one place overflow matters (the
`gStopwatchMs += delta` accumulation).  The hardware elapsed-time meters
(`elapsedMillis`) are modelled by their current reading in milliseconds: the
environment advances all three readings by the wall-clock time `dt` elapsed
since the previous iteration, and assigning `0` resets a reading; reads within
one loop iteration are idealized as instantaneous.  The debounced physical
buttons are modelled by their one-shot edge outputs (`wasPressed` /
`wasReleased`), supplied as per-iteration inputs.
-/

namespace Stopwatch

/-- `uint32_t` modulus. -/
def U32 : Nat := 2 ^ 32

/-- `BUTTON_TICK_MS` (src/main.cpp line 23). -/
def BUTTON_TICK_MS : Nat := 20

/-- `DISPLAY_REFRESH_MS` (src/main.cpp line 24). -/
def DISPLAY_REFRESH_MS : Nat := 50

/-- GUI button record, `struct MyButton` (src/main.cpp lines 33-37). -/
structure MyButton where
  x : Int
  y : Int
  w : Int
  h : Int
  label : String
  pressed : Bool
deriving DecidableEq, Repr

/-- Initial value of the global `btnStart` (src/main.cpp line 40). -/
def btnStart : MyButton := { x := 0, y := 80, w := 50, h := 28, label := "PLAY", pressed := false }

/-- Initial value of the global `guiBtnReset` (src/main.cpp line 41). -/
def guiBtnReset : MyButton := { x := 60, y := 80, w := 50, h := 28, label := "RESET", pressed := false }

/-- `%02u`: decimal, zero-padded to at least two digits (more digits print as-is). -/
def fmt02u (n : Nat) : String :=
  if n < 10 then "0" ++ toString n else toString n

/-- `%03u`: decimal, zero-padded to at least three digits. -/
def fmt03u (n : Nat) : String :=
  if n < 10 then "00" ++ toString n else if n < 100 then "0" ++ toString n else toString n

/-- C `snprintf` into a `char str[10]` buffer: at most 9 characters are kept,
the rest is truncated. -/
def snprintf10 (s : String) : String := s.take 9

/-- What one call to `drawStopwatchScreen` (the defined five-field overload,
src/main.cpp lines 227-247) puts on the screen: the title, the state word and
the time text.  The function writes the `"%02u:%02u:%02u:%02u"` line into
`str` and then immediately overwrites `str` with `"%02u s"` (lines 239-240),
so the second string is what is drawn. -/
structure ScreenDraw where
  title : String
  stateWord : String
  timeText : String
deriving DecidableEq, Repr

set_option linter.unusedVariables false in
/-- Shallow embedding of `drawStopwatchScreen(context, currentSec, currentMin,
currentHr, currentMS, running)` (src/main.cpp lines 227-247).  A second
two-argument overload is declared (line 55) and called (line 145) but never
defined in the repository; only the defined overload produces output. -/
def drawStopwatchScreen (currentSec currentMin currentHr currentMS : Nat) (running : Bool) :
    ScreenDraw :=
  let str := snprintf10
    (fmt02u currentHr ++ ":" ++ fmt02u currentMin ++ ":" ++ fmt02u currentSec ++ ":" ++
      fmt02u currentMS)
  let str := snprintf10 (fmt02u currentSec ++ " s")
  let str2 := if running then "RUNNING" else "STOPPED"
  { title := "STOPWATCH", stateWord := str2, timeText := str }

/-- What one call to `drawButton` (src/main.cpp lines 249-264) puts on the
screen: the label, and the pressed flag which selects the background/text
colors (swapped when pressed). -/
structure ButtonDraw where
  label : String
  pressed : Bool
deriving DecidableEq, Repr

/-- Shallow embedding of `drawButton(context, btn)` (src/main.cpp lines 249-264). -/
def drawButton (btn : MyButton) : ButtonDraw :=
  { label := btn.label, pressed := btn.pressed }

/-- One full repaint: `drawStopwatchScreen` followed by `drawButton` on both
GUI buttons (src/main.cpp lines 144-147). -/
structure Frame where
  screen : ScreenDraw
  startBtn : ButtonDraw
  resetBtn : ButtonDraw
deriving DecidableEq, Repr

/-- All mutable program state the super-loop touches: the globals
`gStopwatchMs`, `gRunning`, `btnStart`, `guiBtnReset` (src/main.cpp lines
26-41) and the locals of `main` (`lastDisplayed*`, `lastRunning`, lines
88-93), plus the current readings of the three `elapsedMillis` meters
(lines 80-82). -/
structure MachineState where
  gStopwatchMs : Nat
  gRunning : Bool
  btnStart : MyButton
  guiBtnReset : MyButton
  lastDisplayedSec : Nat
  lastDisplayedMin : Nat
  lastDisplayedHr : Nat
  lastDisplayedMS : Nat
  lastRunning : Bool
  buttonMeter : Nat
  displayMeter : Nat
  stopwatchMeter : Nat
deriving DecidableEq, Repr

/-- State right after the setup code of `main`, before the first loop
iteration (src/main.cpp lines 26-28, 40-41, 88-93): counters zero, not
running, `lastDisplayed*` set to `(uint32_t)(-1) = 2^32 - 1`, `lastRunning`
set to `!gRunning`, meters freshly snapshotted. -/
def initState : MachineState :=
  { gStopwatchMs := 0
    gRunning := false
    btnStart := btnStart
    guiBtnReset := guiBtnReset
    lastDisplayedSec := U32 - 1
    lastDisplayedMin := U32 - 1
    lastDisplayedHr := U32 - 1
    lastDisplayedMS := U32 - 1
    lastRunning := true
    buttonMeter := 0
    displayMeter := 0
    stopwatchMeter := 0 }

/-- `onPlayPauseClick` (src/main.cpp lines 269-273): flip `gRunning` and set
the GUI label accordingly. -/
def onPlayPauseClick (s : MachineState) : MachineState :=
  let r := !s.gRunning
  { s with
    gRunning := r
    btnStart := { s.btnStart with label := if r then "PAUSE" else "PLAY" } }

/-- `onPlayPauseRelease` (src/main.cpp lines 275-278): empty body. -/
def onPlayPauseRelease (s : MachineState) : MachineState := s

/-- `onResetClick` (src/main.cpp lines 280-283): `gStopwatchMs = 0U`. -/
def onResetClick (s : MachineState) : MachineState :=
  { s with gStopwatchMs := 0 }

/-- `onResetRelease` (src/main.cpp lines 285-288): empty body. -/
def onResetRelease (s : MachineState) : MachineState := s

/-- The stopwatch-logic block of the loop (src/main.cpp lines 122-131), as a
function of (`gRunning`, `gStopwatchMs`, the `stopwatchTick` reading):
returns the new (`gStopwatchMs`, `stopwatchTick`).  `gStopwatchMs += delta`
is `uint32_t` addition, hence the `% U32`. -/
def stopwatchLogic (running : Bool) (ms meter : Nat) : Nat × Nat :=
  if running then
    if meter > 0 then ((ms + meter) % U32, 0) else (ms, meter)
  else
    (ms, 0)

/-- The display split values computed each iteration (src/main.cpp lines
134-138): `currentSec = gStopwatchMs / 1000U`. -/
def currentSec (ms : Nat) : Nat := ms / 1000

/-- `currentMin = gStopwatchMs / 60000U` (src/main.cpp line 136). -/
def currentMin (ms : Nat) : Nat := ms / 60000

/-- `currentHr = gStopwatchMs / 3600000U` (src/main.cpp line 137; the source
spells the type `unint32_t`, an obvious typo for `uint32_t`). -/
def currentHr (ms : Nat) : Nat := ms / 3600000

/-- `currentMS = gStopwatchMs` (src/main.cpp line 138; line 179 re-defines the
same variable as `gStopwatchMs / 1U`, the same value). -/
def currentMS (ms : Nat) : Nat := ms

/-- Result of the display section of the loop body: the frame drawn on this
iteration (if any), the new `lastDisplayed*` / `lastRunning` caches, and the
new `displayTick` meter reading. -/
structure DispResult where
  frame : Option Frame
  lastSec : Nat
  lastMin : Nat
  lastHr : Nat
  lastMS : Nat
  lastRunning : Bool
  displayMeter : Nat
deriving DecidableEq, Repr

/-- The display section of the loop body (src/main.cpp lines 133-187): the
repaint block (lines 140-156) followed by the three update-only branches for
minutes, hours and milliseconds (lines 158-187).  Each source `if` block
updates several variables under one condition; here each updated variable
gets its own `if` on the same condition, which is equivalent.  `dmeter` is
the `displayTick` reading; assigning `0` resets it. -/
def displayPhase (ms : Nat) (running : Bool)
    (lastSec lastMin lastHr lastMS : Nat) (lastRunning : Bool) (dmeter : Nat)
    (bStart bReset : MyButton) : DispResult :=
  let cSec := currentSec ms
  let cMin := currentMin ms
  let cHr := currentHr ms
  let cMS := currentMS ms
  -- repaint block, lines 140-156
  let c1 : Prop := cSec ≠ lastSec ∨ running ≠ lastRunning ∨ DISPLAY_REFRESH_MS ≤ dmeter
  let frame : Option Frame :=
    if c1 then
      some { screen := drawStopwatchScreen cSec cMin cHr cMS running
             startBtn := drawButton bStart
             resetBtn := drawButton bReset }
    else none
  let lastSec1 := if c1 then cSec else lastSec
  let lastRunning1 := if c1 then running else lastRunning
  let dmeter1 := if c1 then 0 else dmeter
  -- minutes branch, lines 158-166 (updates caches only; repaints nothing)
  let c2 : Prop := cMin ≠ lastMin ∨ running ≠ lastRunning1 ∨ DISPLAY_REFRESH_MS ≤ dmeter1
  let lastMin2 := if c2 then cMin else lastMin
  let lastRunning2 := if c2 then running else lastRunning1
  let dmeter2 := if c2 then 0 else dmeter1
  -- hours branch, lines 168-176
  let c3 : Prop := cHr ≠ lastHr ∨ running ≠ lastRunning2 ∨ DISPLAY_REFRESH_MS ≤ dmeter2
  let lastHr3 := if c3 then cHr else lastHr
  let lastRunning3 := if c3 then running else lastRunning2
  let dmeter3 := if c3 then 0 else dmeter2
  -- milliseconds branch, lines 178-187 (`currentMS = gStopwatchMs / 1U`)
  let cMS2 := ms / 1
  let c4 : Prop := cMS2 ≠ lastMS ∨ running ≠ lastRunning3 ∨ DISPLAY_REFRESH_MS ≤ dmeter3
  let lastMS4 := if c4 then cMS2 else lastMS
  let lastRunning4 := if c4 then running else lastRunning3
  let dmeter4 := if c4 then 0 else dmeter3
  { frame := frame
    lastSec := lastSec1
    lastMin := lastMin2
    lastHr := lastHr3
    lastMS := lastMS4
    lastRunning := lastRunning4
    displayMeter := dmeter4 }

/-- Per-iteration environment input: `dt` is the wall-clock time in
milliseconds elapsed since the previous iteration (added to all three meter
readings, which share the one hardware time base), and the four flags are the
one-shot edge outputs of the two debounced physical buttons for this
iteration. -/
structure LoopInput where
  dt : Nat
  ppPressed : Bool
  ppReleased : Bool
  rstPressed : Bool
  rstReleased : Bool
deriving DecidableEq, Repr

/-- The edge-dispatch section of the loop body (src/main.cpp lines 103-120):
consume the one-shot edges of both physical buttons, mirror them into the GUI
button `pressed` flags and invoke the callbacks. -/
def dispatchEdges (s : MachineState) (inp : LoopInput) : MachineState :=
  let s1 := if inp.ppPressed then
      onPlayPauseClick { s with btnStart := { s.btnStart with pressed := true } }
    else s
  let s2 := if inp.ppReleased then
      onPlayPauseRelease { s1 with btnStart := { s1.btnStart with pressed := false } }
    else s1
  let s3 := if inp.rstPressed then
      onResetClick { s2 with guiBtnReset := { s2.guiBtnReset with pressed := true } }
    else s2
  let s4 := if inp.rstReleased then
      onResetRelease { s3 with guiBtnReset := { s3.guiBtnReset with pressed := false } }
    else s3
  s4

/-- One iteration of the super-loop `while (true)` body (src/main.cpp lines
95-188): button cadence, edge dispatch, stopwatch logic, display section.
Returns the new state and the frame drawn this iteration, if any. -/
def loopIter (s : MachineState) (inp : LoopInput) : MachineState × Option Frame :=
  -- time passes: all three meters advance by dt
  let bm := s.buttonMeter + inp.dt
  let dm := s.displayMeter + inp.dt
  let sm := s.stopwatchMeter + inp.dt
  -- poll physical buttons, lines 97-101 (`tick()` feeds the debouncers whose
  -- edge outputs arrive through `inp`)
  let bm1 := if BUTTON_TICK_MS ≤ bm then 0 else bm
  -- edge dispatch, lines 104-120
  let s4 := dispatchEdges s inp
  -- stopwatch logic, lines 122-131
  let p := stopwatchLogic s4.gRunning s4.gStopwatchMs sm
  -- display section, lines 133-187
  let d := displayPhase p.1 s4.gRunning s4.lastDisplayedSec s4.lastDisplayedMin
    s4.lastDisplayedHr s4.lastDisplayedMS s4.lastRunning dm s4.btnStart s4.guiBtnReset
  ({ s4 with
      gStopwatchMs := p.1
      stopwatchMeter := p.2
      buttonMeter := bm1
      displayMeter := d.displayMeter
      lastDisplayedSec := d.lastSec
      lastDisplayedMin := d.lastMin
      lastDisplayedHr := d.lastHr
      lastDisplayedMS := d.lastMS
      lastRunning := d.lastRunning },
    d.frame)

/-- The state after running the super-loop from power-on through a finite
sequence of per-iteration inputs. -/
def runLoop (inputs : List LoopInput) : MachineState :=
  inputs.foldl (fun s i => (loopIter s i).1) initState

/-! ### Specified display splits (for refinement comparison)

The following four definitions follow the specification's words, not the
source; they exist only to be compared with the source-derived
`currentSec` / `currentMin` / `currentHr` / `currentMS` above.
Spec, section 4.4: "`hours = elapsed_ms/3_600_000`, `minutes =
(elapsed_ms/60_000) mod 60`, `seconds = (elapsed_ms/1000) mod 60`,
`millis = elapsed_ms mod 1000`". -/

/-- Specified hours split. -/
def specHours (ms : Nat) : Nat := ms / 3600000

/-- Specified minutes split. -/
def specMinutes (ms : Nat) : Nat := ms / 60000 % 60

/-- Specified seconds split. -/
def specSeconds (ms : Nat) : Nat := ms / 1000 % 60

/-- Specified milliseconds split. -/
def specMillis (ms : Nat) : Nat := ms % 1000

/-- The time string format the specification requires (sections 4.5 and 6):
exactly `"%02u:%02u:%02u:%03u"` = HH:MM:SS:mmm.  Follows the spec's words,
for comparison with the source-derived `drawStopwatchScreen`. -/
def specTimeText (hours minutes seconds millis : Nat) : String :=
  fmt02u hours ++ ":" ++ fmt02u minutes ++ ":" ++ fmt02u seconds ++ ":" ++ fmt03u millis

/-! ### Theorems -/

/-- Claim C3.  The claim states that the derived display splits satisfy
`hours = ms / 3600000`, `minutes = (ms / 60000) mod 60`,
`seconds = (ms / 1000) mod 60`, `millis = ms mod 1000`, and that
`elapsed_ms = 65001` yields the split 00:01:05:001.  The code computes
`currentMin` and `currentSec` without the `mod 60` and `currentMS` without
the `mod 1000` (src/main.cpp lines 134-138), so at 65001 it derives
minutes 1, seconds 65, millis 65001 instead of the claimed 1, 5, 1. -/
theorem C3_split_code_bug :
    currentHr 65001 = 0 ∧ currentMin 65001 = 1 ∧ currentSec 65001 = 65 ∧
      currentMS 65001 = 65001 ∧
    specHours 65001 = 0 ∧ specMinutes 65001 = 1 ∧ specSeconds 65001 = 5 ∧
      specMillis 65001 = 1 ∧
    currentSec 65001 ≠ specSeconds 65001 ∧ currentMS 65001 ≠ specMillis 65001 := by
  decide

/-- Claim C4.  The claim states that the time string drawn on each repaint is
formatted exactly as `"%02u:%02u:%02u:%03u"` = HH:MM:SS:mmm.  In the code the
buffer holding that string is immediately overwritten by a second `snprintf`
with `"%02u s"` (src/main.cpp lines 239-240), so at `gStopwatchMs = 65001`
(splits 65/1/0/65001 as computed by the loop) the drawn text is `"65 s"`,
not the specified `"00:01:05:001"`. -/
theorem C4_time_format_code_bug :
    (drawStopwatchScreen (currentSec 65001) (currentMin 65001) (currentHr 65001)
        (currentMS 65001) true).timeText = "65 s" ∧
    specTimeText (specHours 65001) (specMinutes 65001) (specSeconds 65001)
        (specMillis 65001) = "00:01:05:001" ∧
    (drawStopwatchScreen (currentSec 65001) (currentMin 65001) (currentHr 65001)
        (currentMS 65001) true).timeText ≠
      specTimeText (specHours 65001) (specMinutes 65001) (specSeconds 65001)
        (specMillis 65001) := by
  refine ⟨rfl, rfl, ?_⟩
  decide

/-- Claim C5.  `onResetClick` (the reset operation dispatched on a Reset press
edge) sets `gStopwatchMs` to 0, leaves `gRunning` unchanged, and is
idempotent: two consecutive resets equal one reset. -/
theorem C5_reset_semantics (s : MachineState) :
    (onResetClick s).gStopwatchMs = 0 ∧
    (onResetClick s).gRunning = s.gRunning ∧
    onResetClick (onResetClick s) = onResetClick s :=
  ⟨rfl, rfl, rfl⟩

/-- Claim C6.  `onPlayPauseClick` (the toggle operation dispatched on a
PlayPause press edge) flips `gRunning` and leaves `gStopwatchMs` unchanged. -/
theorem C6_toggle_semantics (s : MachineState) :
    (onPlayPauseClick s).gRunning = !s.gRunning ∧
    (onPlayPauseClick s).gStopwatchMs = s.gStopwatchMs :=
  ⟨rfl, rfl⟩

/-- Claim C9.  `gStopwatchMs` is a 32-bit unsigned accumulator updated by
modular addition: every positive delta advances it to `(ms + delta) % 2^32`,
so from `2^32 - 1` a 1 ms delta wraps to 0 rather than saturating; `2^32` ms
is about 49.7 days. -/
theorem C9_modular_wraparound :
    (∀ ms meter, 0 < meter → (stopwatchLogic true ms meter).1 = (ms + meter) % U32) ∧
    (stopwatchLogic true (U32 - 1) 1).1 = 0 ∧
    (stopwatchLogic true (U32 - 1) 1).1 ≠ U32 - 1 ∧
    U32 / 86400000 = 49 := by
  refine ⟨?_, by decide, by decide, by decide⟩
  intro ms meter h
  simp [stopwatchLogic, h]

/-- Witness for C9 at a concrete input. -/
theorem C9_modular_wraparound_witness :
    (stopwatchLogic true 5 7).1 = 12 := by
  have h := C9_modular_wraparound.1 5 7 (by decide)
  rw [h]
  decide

/-- The first component of `stopwatchLogic` stays below `2^32`. -/
theorem stopwatchLogic_fst_lt (running : Bool) (ms meter : Nat) (h : ms < U32) :
    (stopwatchLogic running ms meter).1 < U32 := by
  unfold stopwatchLogic
  cases running with
  | false => simpa using h
  | true =>
    by_cases hm : meter > 0
    · simpa [hm] using Nat.mod_lt _ (by decide : 0 < U32)
    · simpa [hm] using h

/-- Folding `stopwatchLogic` with the running flag set over a list of meter
readings accumulates a modular sum of the deltas. -/
theorem stopwatchLogic_foldl (ds : List Nat) :
    ∀ ms0, ms0 < U32 →
      ds.foldl (fun ms d => (stopwatchLogic true ms d).1) ms0 = (ms0 + ds.sum) % U32 := by
  induction ds with
  | nil =>
    intro ms0 h
    simp [Nat.mod_eq_of_lt h]
  | cons d ds ih =>
    intro ms0 h
    simp only [List.foldl_cons, List.sum_cons]
    by_cases hd : d > 0
    · have hstep : (stopwatchLogic true ms0 d).1 = (ms0 + d) % U32 := by
        simp [stopwatchLogic, hd]
      rw [hstep, ih _ (Nat.mod_lt _ (by decide : 0 < U32)), Nat.mod_add_mod,
        Nat.add_assoc]
    · have hd0 : d = 0 := Nat.eq_zero_of_not_pos hd
      have hstep : (stopwatchLogic true ms0 d).1 = ms0 := by
        simp [stopwatchLogic, hd0]
      rw [hstep, ih _ h, hd0, Nat.zero_add]

/-- Claim C1.  The stopwatch-logic block: while running, a positive meter
reading `delta` is added (as `uint32_t` addition) to `gStopwatchMs` and the
meter is reset; while paused, `gStopwatchMs` is untouched and the meter is
reset; consequently over any run interval the accumulated value is the
(modular) sum of the per-iteration deltas, and the pause-time meter reset
means no idle time is ever added on resume. -/
theorem C1_time_accumulation :
    (∀ ms meter, 0 < meter → stopwatchLogic true ms meter = ((ms + meter) % U32, 0)) ∧
    (∀ ms meter, stopwatchLogic false ms meter = (ms, 0)) ∧
    (∀ (ms0 : Nat) (ds : List Nat), ms0 < U32 →
      ds.foldl (fun ms d => (stopwatchLogic true ms d).1) ms0 = (ms0 + ds.sum) % U32) := by
  refine ⟨?_, ?_, ?_⟩
  · intro ms meter h
    simp [stopwatchLogic, h]
  · intro ms meter
    simp [stopwatchLogic]
  · intro ms0 ds h
    exact stopwatchLogic_foldl ds ms0 h

/-- Witness for C1 at concrete inputs. -/
theorem C1_time_accumulation_witness :
    stopwatchLogic true 100 7 = (107 % U32, 0) ∧
    stopwatchLogic false 100 7 = (100, 0) ∧
    [3, 0, 5].foldl (fun ms d => (stopwatchLogic true ms d).1) 2 = (2 + [3, 0, 5].sum) % U32 :=
  ⟨C1_time_accumulation.1 100 7 (by decide),
   C1_time_accumulation.2.1 100 7,
   C1_time_accumulation.2.2 2 [3, 0, 5] (by decide)⟩

/-- The frame produced by the display section is exactly governed by the
repaint condition of src/main.cpp lines 140-142. -/
theorem displayPhase_frame_eq (ms : Nat) (running : Bool)
    (lastSec lastMin lastHr lastMS : Nat) (lastRunning : Bool) (dmeter : Nat)
    (bStart bReset : MyButton) :
    (displayPhase ms running lastSec lastMin lastHr lastMS lastRunning dmeter bStart bReset).frame =
      if currentSec ms ≠ lastSec ∨ running ≠ lastRunning ∨ DISPLAY_REFRESH_MS ≤ dmeter then
        some { screen := drawStopwatchScreen (currentSec ms) (currentMin ms) (currentHr ms)
                 (currentMS ms) running
               startBtn := drawButton bStart
               resetBtn := drawButton bReset }
      else none := rfl

/-- When the repaint condition holds, the display section resets the
`displayTick` meter and leaves every `lastDisplayed*` cache and `lastRunning`
equal to the painted values. -/
theorem displayPhase_repaint_effects (ms : Nat) (running : Bool)
    (lastSec lastMin lastHr lastMS : Nat) (lastRunning : Bool) (dmeter : Nat)
    (bStart bReset : MyButton)
    (h : currentSec ms ≠ lastSec ∨ running ≠ lastRunning ∨ DISPLAY_REFRESH_MS ≤ dmeter) :
    (displayPhase ms running lastSec lastMin lastHr lastMS lastRunning dmeter bStart bReset).displayMeter = 0 ∧
    (displayPhase ms running lastSec lastMin lastHr lastMS lastRunning dmeter bStart bReset).lastSec = currentSec ms ∧
    (displayPhase ms running lastSec lastMin lastHr lastMS lastRunning dmeter bStart bReset).lastMin = currentMin ms ∧
    (displayPhase ms running lastSec lastMin lastHr lastMS lastRunning dmeter bStart bReset).lastHr = currentHr ms ∧
    (displayPhase ms running lastSec lastMin lastHr lastMS lastRunning dmeter bStart bReset).lastMS = currentMS ms ∧
    (displayPhase ms running lastSec lastMin lastHr lastMS lastRunning dmeter bStart bReset).lastRunning = running := by
  simp only [displayPhase, if_pos h]
  by_cases h2 : currentMin ms ≠ lastMin <;>
    by_cases h3 : currentHr ms ≠ lastHr <;>
      by_cases h4 : ms / 1 ≠ lastMS <;>
        simp_all [currentMS, DISPLAY_REFRESH_MS, currentMin, currentHr]

/-- Claim C2.  The display section repaints (produces a frame) exactly when
the seconds value derived for display changed since the last paint, or the
running flag changed since the last paint, or the `displayTick` meter reading
reached `DISPLAY_REFRESH_MS` (50 ms); and on every repaint the meter is reset
to zero and the last-painted caches are left equal to the painted values. -/
theorem C2_repaint_decision (ms : Nat) (running : Bool)
    (lastSec lastMin lastHr lastMS : Nat) (lastRunning : Bool) (dmeter : Nat)
    (bStart bReset : MyButton) :
    ((displayPhase ms running lastSec lastMin lastHr lastMS lastRunning dmeter bStart bReset).frame.isSome = true ↔
      (currentSec ms ≠ lastSec ∨ running ≠ lastRunning ∨ DISPLAY_REFRESH_MS ≤ dmeter)) ∧
    ((displayPhase ms running lastSec lastMin lastHr lastMS lastRunning dmeter bStart bReset).frame.isSome = true →
      (displayPhase ms running lastSec lastMin lastHr lastMS lastRunning dmeter bStart bReset).displayMeter = 0 ∧
      (displayPhase ms running lastSec lastMin lastHr lastMS lastRunning dmeter bStart bReset).lastSec = currentSec ms ∧
      (displayPhase ms running lastSec lastMin lastHr lastMS lastRunning dmeter bStart bReset).lastMin = currentMin ms ∧
      (displayPhase ms running lastSec lastMin lastHr lastMS lastRunning dmeter bStart bReset).lastHr = currentHr ms ∧
      (displayPhase ms running lastSec lastMin lastHr lastMS lastRunning dmeter bStart bReset).lastMS = currentMS ms ∧
      (displayPhase ms running lastSec lastMin lastHr lastMS lastRunning dmeter bStart bReset).lastRunning = running) := by
  have hiff :
      (displayPhase ms running lastSec lastMin lastHr lastMS lastRunning dmeter bStart bReset).frame.isSome = true ↔
        (currentSec ms ≠ lastSec ∨ running ≠ lastRunning ∨ DISPLAY_REFRESH_MS ≤ dmeter) := by
    rw [displayPhase_frame_eq]
    by_cases h : currentSec ms ≠ lastSec ∨ running ≠ lastRunning ∨ DISPLAY_REFRESH_MS ≤ dmeter <;>
      simp [h]
  exact ⟨hiff, fun hs =>
    displayPhase_repaint_effects ms running lastSec lastMin lastHr lastMS lastRunning dmeter
      bStart bReset (hiff.mp hs)⟩

/-- Witness for C2 at a concrete input: `ms = 65001`, all caches zero, paint
forced by the changed seconds value. -/
theorem C2_repaint_decision_witness :
    (displayPhase 65001 true 0 0 0 0 true 0 btnStart guiBtnReset).frame.isSome = true ∧
    (displayPhase 65001 true 0 0 0 0 true 0 btnStart guiBtnReset).displayMeter = 0 ∧
    (displayPhase 65001 true 0 0 0 0 true 0 btnStart guiBtnReset).lastSec = currentSec 65001 := by
  have h := C2_repaint_decision 65001 true 0 0 0 0 true 0 btnStart guiBtnReset
  have hs : (displayPhase 65001 true 0 0 0 0 true 0 btnStart guiBtnReset).frame.isSome = true :=
    h.1.mpr (Or.inl (by decide))
  exact ⟨hs, (h.2 hs).1, (h.2 hs).2.1⟩

/-- Edge dispatch preserves the Play/Pause label contract: after dispatch the
GUI label reads `"PAUSE"` exactly when the stopwatch is running. -/
theorem label_dispatchEdges (s : MachineState) (inp : LoopInput)
    (h : s.btnStart.label = if s.gRunning then "PAUSE" else "PLAY") :
    (dispatchEdges s inp).btnStart.label =
      if (dispatchEdges s inp).gRunning then "PAUSE" else "PLAY" := by
  cases inp with
  | mk dt pp ppr rp rr =>
    cases pp <;> cases ppr <;> cases rp <;> cases rr <;>
      simp_all [dispatchEdges, onPlayPauseClick, onPlayPauseRelease, onResetClick,
        onResetRelease]

/-- One loop iteration preserves the Play/Pause label contract. -/
theorem label_loopIter (s : MachineState) (inp : LoopInput)
    (h : s.btnStart.label = if s.gRunning then "PAUSE" else "PLAY") :
    (loopIter s inp).1.btnStart.label =
      if (loopIter s inp).1.gRunning then "PAUSE" else "PLAY" :=
  label_dispatchEdges s inp h

/-- The Play/Pause label contract holds after any fold of loop iterations. -/
theorem label_foldl (l : List LoopInput) :
    ∀ s : MachineState, s.btnStart.label = (if s.gRunning then "PAUSE" else "PLAY") →
      (l.foldl (fun s i => (loopIter s i).1) s).btnStart.label =
        if (l.foldl (fun s i => (loopIter s i).1) s).gRunning then "PAUSE" else "PLAY" := by
  induction l with
  | nil => intro s h; simpa using h
  | cons i l ih => intro s h; exact ih _ (label_loopIter s i h)

/-- Claim C7.  In every reachable state of the program the label of the first
GUI button reads `"PAUSE"` when `gRunning` is true and `"PLAY"` when it is
false: it holds at power-on and is preserved by every loop iteration (and in
particular by every edge dispatch). -/
theorem C7_play_pause_label (inputs : List LoopInput) :
    (runLoop inputs).btnStart.label =
      if (runLoop inputs).gRunning then "PAUSE" else "PLAY" :=
  label_foldl inputs initState rfl

/-- Edge dispatch cannot make `gStopwatchMs` nonzero: it either leaves it
unchanged or resets it to zero. -/
theorem dispatchEdges_gStopwatchMs_zero (s : MachineState) (inp : LoopInput)
    (h : s.gStopwatchMs = 0) : (dispatchEdges s inp).gStopwatchMs = 0 := by
  cases inp with
  | mk dt pp ppr rp rr =>
    cases pp <;> cases ppr <;> cases rp <;> cases rr <;>
      simp_all [dispatchEdges, onPlayPauseClick, onPlayPauseRelease, onResetClick,
        onResetRelease]

/-- Edge dispatch never touches the `lastDisplayedSec` cache. -/
theorem dispatchEdges_lastDisplayedSec (s : MachineState) (inp : LoopInput) :
    (dispatchEdges s inp).lastDisplayedSec = s.lastDisplayedSec := by
  cases inp with
  | mk dt pp ppr rp rr =>
    cases pp <;> cases ppr <;> cases rp <;> cases rr <;>
      simp [dispatchEdges, onPlayPauseClick, onPlayPauseRelease, onResetClick,
        onResetRelease]

/-- The frame drawn by one loop iteration is the one produced by the display
section, fed with the post-dispatch, post-accumulation state. -/
theorem loopIter_frame (s : MachineState) (inp : LoopInput) :
    (loopIter s inp).2 =
      (displayPhase
        (stopwatchLogic (dispatchEdges s inp).gRunning (dispatchEdges s inp).gStopwatchMs
          (s.stopwatchMeter + inp.dt)).1
        (dispatchEdges s inp).gRunning (dispatchEdges s inp).lastDisplayedSec
        (dispatchEdges s inp).lastDisplayedMin (dispatchEdges s inp).lastDisplayedHr
        (dispatchEdges s inp).lastDisplayedMS (dispatchEdges s inp).lastRunning
        (s.displayMeter + inp.dt) (dispatchEdges s inp).btnStart
        (dispatchEdges s inp).guiBtnReset).frame := rfl

/-- Claim C10.  The very first super-loop iteration repaints no matter what
the meters read and what button edges arrive: `lastDisplayedSec` is
initialized to `2^32 - 1`, which no value of `gStopwatchMs / 1000` can equal
while `gStopwatchMs` fits in 32 bits. -/
theorem C10_first_iteration_repaints (inp : LoopInput) :
    ((loopIter initState inp).2).isSome = true := by
  rw [loopIter_frame, displayPhase_frame_eq]
  have h0 : (dispatchEdges initState inp).gStopwatchMs = 0 :=
    dispatchEdges_gStopwatchMs_zero _ _ rfl
  have hsec : (dispatchEdges initState inp).lastDisplayedSec = U32 - 1 :=
    dispatchEdges_lastDisplayedSec _ _
  have hlt : (stopwatchLogic (dispatchEdges initState inp).gRunning
      (dispatchEdges initState inp).gStopwatchMs (initState.stopwatchMeter + inp.dt)).1 < U32 :=
    stopwatchLogic_fst_lt _ _ _ (by rw [h0]; decide)
  have hne : currentSec (stopwatchLogic (dispatchEdges initState inp).gRunning
      (dispatchEdges initState inp).gStopwatchMs (initState.stopwatchMeter + inp.dt)).1 ≠
      (dispatchEdges initState inp).lastDisplayedSec := by
    rw [hsec]
    have hlt' : (stopwatchLogic (dispatchEdges initState inp).gRunning
        (dispatchEdges initState inp).gStopwatchMs
        (initState.stopwatchMeter + inp.dt)).1 < 2 ^ 32 := hlt
    unfold currentSec U32
    omega
  rw [if_pos (Or.inl hne)]
  rfl

/-- Claim C8.  At power-on the model state is `gStopwatchMs = 0`,
`gRunning = false`, and with no button input the first iteration repaints a
frame whose state word is `"STOPPED"` and whose first GUI button is labelled
`"PLAY"` — but whose time text is `"00 s"`, not the `"00:00:00:000"` the
claim requires, because the second `snprintf` of `drawStopwatchScreen`
(src/main.cpp line 240) overwrites the HH:MM:SS line. -/
theorem C8_first_frame_code_bug (dt : Nat) :
    initState.gStopwatchMs = 0 ∧ initState.gRunning = false ∧
    (loopIter initState ⟨dt, false, false, false, false⟩).2 =
      some { screen := { title := "STOPWATCH", stateWord := "STOPPED", timeText := "00 s" }
             startBtn := { label := "PLAY", pressed := false }
             resetBtn := { label := "RESET", pressed := false } } ∧
    specTimeText 0 0 0 0 = "00:00:00:000" ∧
    "00 s" ≠ specTimeText 0 0 0 0 := by
  refine ⟨rfl, rfl, ?_, rfl, by decide⟩
  rw [loopIter_frame]
  rw [show dispatchEdges initState ⟨dt, false, false, false, false⟩ = initState from rfl]
  rw [show stopwatchLogic initState.gRunning initState.gStopwatchMs
      (initState.stopwatchMeter + dt) = (0, 0) from rfl]
  rw [displayPhase_frame_eq]
  rw [if_pos (Or.inl (by decide : currentSec (0, 0).1 ≠ initState.lastDisplayedSec))]
  rfl

end Stopwatch
